import Mathlib

/-!
Verification of the session-management core of DiscordCommandRunner
(`scripts/command_runner/sessions.py`).

The Python module manages tmux-backed agent sessions: it generates a unique
session name from a timestamp with a bounded collision-probe loop, writes a
per-session artifact directory (a config record and an instructions document),
launches the agent inside a detached tmux session, and offers list / thread-id
lookup / kill operations.

The shallow embedding below models:
 - the filesystem and the tmux server as an explicit `World` state,
 - external subprocess exit codes as explicit inputs (`SpawnCodes`),
 - Python string builtins (`str.strip`, `str.startswith`, `str.split(sep, 1)`,
   `str.splitlines`, `int(...)`, decimal rendering by f-strings) as executable
   Lean functions over `List Char`,
 - each public operation of `sessions.py` as a state-passing function that also
   returns the list of external effects (`Event`) it performed, in order.

Python's `str.splitlines` is modelled as splitting on the newline character
`\n`, the only line separator this program itself ever writes.
-/

/-- Characters treated as whitespace by Python's `str.strip` (ASCII range). -/
def isPySpace (c : Char) : Bool :=
  c == ' ' || c == '\t' || c == '\n' || c == '\r' || c == '\x0b' || c == '\x0c'

/-- Drop trailing `isPySpace` characters. -/
def stripTrail (l : List Char) : List Char :=
  (l.reverse.dropWhile isPySpace).reverse

/-- Drop leading and trailing `isPySpace` characters: Python's `str.strip`. -/
def stripData (l : List Char) : List Char :=
  stripTrail (l.dropWhile isPySpace)

/-- Python's `str.strip()` on strings. -/
def pyStrip (s : String) : String :=
  String.mk (stripData s.data)

/-- Python's `str.startswith(p)`. -/
def pyStartsWith (s p : String) : Bool :=
  p.data.isPrefixOf s.data

/-- Split a character list at every occurrence of `sep` (keeping empty groups),
as Python's `str.split(sep)` does. -/
def splitCharList (sep : Char) : List Char → List (List Char)
  | [] => [[]]
  | c :: cs =>
    if c = sep then [] :: splitCharList sep cs
    else
      match splitCharList sep cs with
      | [] => [[c]]
      | g :: gs => (c :: g) :: gs

/-- Python's `str.splitlines()`, with `\n` as the line separator: split on the
separator and drop the final empty piece produced by a trailing newline. -/
def pySplitlines (s : String) : List String :=
  let parts := (splitCharList '\n' s.data).map String.mk
  if parts.getLast? = some "" then parts.dropLast else parts

/-- Split a character list at the first occurrence of `sep`, if any. -/
def splitOnceData (sep : Char) : List Char → Option (List Char × List Char)
  | [] => none
  | c :: cs =>
    if c = sep then some ([], cs)
    else (splitOnceData sep cs).map (fun p => (c :: p.1, p.2))

/-- Python's `str.split(sep, 1)`. -/
def pySplit1 (s : String) (sep : Char) : List String :=
  match splitOnceData sep s.data with
  | none => [s]
  | some (a, b) => [String.mk a, String.mk b]

/-- Reversed decimal digits of a natural number (least significant first),
computed with explicit fuel so that it is structurally recursive. -/
def decRevAux : Nat → Nat → List Nat
  | 0, _ => []
  | fuel + 1, n => if n = 0 then [] else n % 10 :: decRevAux fuel (n / 10)

/-- Reversed decimal digits of a natural number. -/
def decRev (n : Nat) : List Nat := decRevAux n n

/-- Decimal rendering of a natural number, modelling Python's `str`/f-string
formatting of a non-negative integer. -/
def pyStrNat (n : Nat) : String :=
  if n = 0 then "0" else String.mk (((decRev n).map Nat.digitChar).reverse)

/-- Decimal rendering of an integer, modelling Python's `str`/f-string
formatting of an `int`. -/
def pyStrInt : Int → String
  | Int.ofNat n => pyStrNat n
  | Int.negSucc m => "-" ++ pyStrNat (m + 1)

/-- Decimal digit characters `0`-`9`. -/
def isDigitCh (c : Char) : Bool :=
  48 ≤ c.toNat && c.toNat ≤ 57

/-- Value of a most-significant-first decimal digit character list. -/
def digitsVal (l : List Char) : Nat :=
  l.foldl (fun a c => a * 10 + (c.toNat - 48)) 0

/-- Parse a nonempty all-digit character list as a natural number. -/
def parseDigits (l : List Char) : Option Nat :=
  if l.isEmpty then none
  else if l.all isDigitCh then some (digitsVal l) else none

/-- Sign handling of Python's `int(str)` after stripping. -/
def pyIntCore : List Char → Option Int
  | [] => none
  | c :: cs =>
    if c = '-' then (parseDigits cs).map (fun n => -(n : Int))
    else if c = '+' then (parseDigits cs).map (fun n => (n : Int))
    else (parseDigits (c :: cs)).map (fun n => (n : Int))

/-- Python's `int(s)` on a decimal string: strip whitespace, optional sign,
then a nonempty run of digits; `none` models raising `ValueError`. -/
def pyInt (s : String) : Option Int :=
  pyIntCore (stripData s.data)

/-! ### Basic string lemmas -/

theorem strAppendCancelLeft (a : String) {x y : String} (h : a ++ x = a ++ y) :
    x = y := by
  apply String.ext
  have hd := congrArg String.data h
  simp only [String.data_append] at hd
  exact List.append_cancel_left hd

theorem strNeOfLength {s t : String} (h : s.length ≠ t.length) : s ≠ t := by
  intro he; exact h (congrArg String.length he)

theorem strAppendNeAppend (a : String) {x y : String} (h : x ≠ y) :
    a ++ x ≠ a ++ y := fun he => h (strAppendCancelLeft a he)

/-! ### Strip lemmas -/

theorem dropWhileAllFalse (p : Char → Bool) :
    ∀ l : List Char, (∀ c ∈ l, p c = false) → l.dropWhile p = l := by
  intro l h
  cases l with
  | nil => rfl
  | cons c cs => simp [List.dropWhile, h c (by simp)]

theorem stripTrail_of_nonspace {l : List Char}
    (h : ∀ c ∈ l, isPySpace c = false) : stripTrail l = l := by
  unfold stripTrail
  rw [dropWhileAllFalse isPySpace l.reverse (fun c hc => h c (by simpa using hc))]
  exact l.reverse_reverse

theorem stripData_of_nonspace {l : List Char}
    (h : ∀ c ∈ l, isPySpace c = false) : stripData l = l := by
  unfold stripData
  rw [dropWhileAllFalse isPySpace l h]
  exact stripTrail_of_nonspace h

theorem stripData_space_cons (l : List Char) :
    stripData (' ' :: l) = stripData l := by
  unfold stripData
  simp [List.dropWhile, isPySpace]

theorem stripTrail_snoc {c : Char} (hc : isPySpace c = false) (l : List Char) :
    stripTrail (l ++ [c]) = l ++ [c] := by
  unfold stripTrail
  rw [List.reverse_append]
  simp only [List.reverse_cons, List.reverse_nil, List.nil_append, List.singleton_append]
  rw [List.dropWhile_cons_of_neg (by simp [hc])]
  simp

theorem stripData_cons_snoc {b c : Char} (hb : isPySpace b = false)
    (hc : isPySpace c = false) (l : List Char) :
    stripData (b :: (l ++ [c])) = b :: (l ++ [c]) := by
  unfold stripData
  rw [List.dropWhile_cons_of_neg (by simp [hb])]
  have : (b :: (l ++ [c])) = (b :: l) ++ [c] := by simp
  rw [this, stripTrail_snoc hc]

theorem stripTrail_cons_of_nonspace {b : Char} (hb : isPySpace b = false)
    (l : List Char) : ∃ l', stripTrail (b :: l) = b :: l' := by
  induction l using List.reverseRecOn with
  | nil =>
    refine ⟨[], ?_⟩
    unfold stripTrail
    simp [List.dropWhile, hb]
  | append_singleton ys c ih =>
    by_cases hc : isPySpace c = true
    · have hstep : stripTrail (b :: (ys ++ [c])) = stripTrail (b :: ys) := by
        unfold stripTrail
        have hrev : (b :: (ys ++ [c])).reverse = c :: (b :: ys).reverse := by simp
        rw [hrev, List.dropWhile_cons_of_pos (by simp [hc])]
      rw [hstep]; exact ih
    · have heq : b :: (ys ++ [c]) = (b :: ys) ++ [c] := by simp
      refine ⟨ys ++ [c], ?_⟩
      rw [heq, stripTrail_snoc (by simpa using hc)]

theorem stripData_cons_of_nonspace {b : Char} (hb : isPySpace b = false)
    (l : List Char) : ∃ l', stripData (b :: l) = b :: l' := by
  unfold stripData
  rw [List.dropWhile_cons_of_neg (by simp [hb])]
  exact stripTrail_cons_of_nonspace hb l

/-! ### Decimal rendering and parsing round-trip -/

theorem decRevAux_eq_digits : ∀ fuel n, n ≤ fuel → decRevAux fuel n = Nat.digits 10 n := by
  intro fuel
  induction fuel with
  | zero =>
    intro n h
    interval_cases n
    simp [decRevAux]
  | succ f ih =>
    intro n h
    by_cases h0 : n = 0
    · subst h0; simp [decRevAux]
    · rw [decRevAux, if_neg h0]
      rw [ih (n / 10) (by
        have := Nat.div_lt_self (Nat.pos_of_ne_zero h0) (by norm_num : 1 < 10)
        omega)]
      rw [Nat.digits_def' (by norm_num : 1 < 10) (Nat.pos_of_ne_zero h0)]

theorem decRev_eq_digits (n : Nat) : decRev n = Nat.digits 10 n :=
  decRevAux_eq_digits n n (Nat.le_refl n)

theorem digitChar_toNat {d : Nat} (h : d < 10) : (Nat.digitChar d).toNat = 48 + d := by
  interval_cases d <;> decide

theorem isDigitCh_digitChar {d : Nat} (h : d < 10) : isDigitCh (Nat.digitChar d) = true := by
  simp only [isDigitCh, digitChar_toNat h, Bool.and_eq_true, decide_eq_true_eq]
  omega

theorem foldl_digitChars (ds : List Nat) (hds : ∀ d ∈ ds, d < 10) :
    ∀ a : Nat,
      List.foldl (fun a c => a * 10 + (c.toNat - 48)) a ((ds.map Nat.digitChar).reverse)
        = a * 10 ^ ds.length + Nat.ofDigits 10 ds := by
  induction ds with
  | nil => intro a; simp [Nat.ofDigits_nil]
  | cons d tl ih =>
    intro a
    have hd : d < 10 := hds d (by simp)
    have htl : ∀ x ∈ tl, x < 10 := fun x hx => hds x (by simp [hx])
    simp only [List.map_cons, List.reverse_cons, List.foldl_append, List.foldl_cons,
      List.foldl_nil]
    rw [ih htl a]
    rw [digitChar_toNat hd]
    rw [Nat.ofDigits_cons]
    simp only [List.length_cons, pow_succ, Nat.add_sub_cancel_left]
    ring

theorem pyStrNat_all_digits (n : Nat) : ∀ c ∈ (pyStrNat n).data, isDigitCh c = true := by
  by_cases h0 : n = 0
  · subst h0; intro c hc; simp [pyStrNat] at hc; subst hc; decide
  · intro c hc
    simp only [pyStrNat, if_neg h0] at hc
    simp only [List.mem_reverse, List.mem_map] at hc
    obtain ⟨d, hd, rfl⟩ := hc
    rw [decRev_eq_digits] at hd
    exact isDigitCh_digitChar (Nat.digits_lt_base (by norm_num) hd)

theorem parseDigits_pyStrNat (n : Nat) : parseDigits (pyStrNat n).data = some n := by
  by_cases h0 : n = 0
  · subst h0; decide
  · have hdata : (pyStrNat n).data = ((decRev n).map Nat.digitChar).reverse := by
      simp [pyStrNat, if_neg h0]
    have hdig : ∀ d ∈ decRev n, d < 10 := by
      rw [decRev_eq_digits]
      exact fun d hd => Nat.digits_lt_base (by norm_num) hd
    have hne : decRev n ≠ [] := by
      rw [decRev_eq_digits]
      exact Nat.digits_ne_nil_iff_ne_zero.mpr h0
    rw [parseDigits, hdata]
    rw [if_neg (by
      simp only [List.isEmpty_eq_true, List.reverse_eq_nil_iff, List.map_eq_nil_iff]
      exact hne)]
    rw [if_pos (by
      rw [List.all_eq_true]
      intro c hc
      simp only [List.mem_reverse, List.mem_map] at hc
      obtain ⟨d, hd, rfl⟩ := hc
      exact isDigitCh_digitChar (hdig d hd))]
    rw [digitsVal, foldl_digitChars (decRev n) hdig 0]
    rw [decRev_eq_digits, Nat.ofDigits_digits]
    simp

theorem isPySpace_false_of_toNat {c : Char} (h : 33 ≤ c.toNat) : isPySpace c = false := by
  simp only [isPySpace, Bool.or_eq_false_iff, beq_eq_false_iff_ne, ne_eq]
  refine ⟨⟨⟨⟨⟨?_, ?_⟩, ?_⟩, ?_⟩, ?_⟩, ?_⟩ <;>
    (intro he; subst he; exact absurd h (by decide))

theorem pyStrNat_nonspace (n : Nat) : ∀ c ∈ (pyStrNat n).data, isPySpace c = false := by
  intro c hc
  have := pyStrNat_all_digits n c hc
  simp only [isDigitCh, Bool.and_eq_true, decide_eq_true_eq] at this
  exact isPySpace_false_of_toNat (by omega)

theorem pyIntCore_pyStrInt (t : Int) : pyIntCore (pyStrInt t).data = some t := by
  cases t with
  | ofNat n =>
    have hall := pyStrNat_all_digits n
    rcases hne : (pyStrNat n).data with _ | ⟨c, cs⟩
    · exfalso
      by_cases h0 : n = 0
      · subst h0; simp [pyStrNat] at hne
      · have : (pyStrNat n).data ≠ [] := by
          simp only [pyStrNat, if_neg h0]
          simp only [ne_eq, List.reverse_eq_nil_iff, List.map_eq_nil_iff]
          rw [decRev_eq_digits]
          exact Nat.digits_ne_nil_iff_ne_zero.mpr h0
        exact this hne
    · have hcdig : isDigitCh c = true := hall c (by rw [hne]; simp)
      have hc48 : 48 ≤ c.toNat ∧ c.toNat ≤ 57 := by
        simpa [isDigitCh] using hcdig
      have hcm : c ≠ '-' := by
        intro he; subst he; revert hc48; decide
      have hcp : c ≠ '+' := by
        intro he; subst he; revert hc48; decide
      have hne' : (pyStrInt (Int.ofNat n)).data = c :: cs := hne
      rw [hne']
      simp only [pyIntCore, if_neg hcm, if_neg hcp]
      rw [← hne, parseDigits_pyStrNat]
      rfl
  | negSucc m =>
    have hdata : (pyStrInt (Int.negSucc m)).data = '-' :: (pyStrNat (m + 1)).data := by
      show (("-" : String) ++ pyStrNat (m + 1)).data = _
      rw [String.data_append]
      rfl
    rw [hdata]
    simp only [pyIntCore, if_pos rfl]
    rw [parseDigits_pyStrNat]
    show some (-(((m + 1 : Nat) : Int))) = some (Int.negSucc m)
    congr 1

theorem pyStrInt_nonspace (t : Int) : ∀ c ∈ (pyStrInt t).data, isPySpace c = false := by
  cases t with
  | ofNat n => exact pyStrNat_nonspace n
  | negSucc m =>
    intro c hc
    have hdata : (pyStrInt (Int.negSucc m)).data = '-' :: (pyStrNat (m + 1)).data := by
      show (("-" : String) ++ pyStrNat (m + 1)).data = _
      rw [String.data_append]
      rfl
    rw [hdata] at hc
    rcases hc with _ | hc
    · decide
    · exact pyStrNat_nonspace (m + 1) c (by assumption)

theorem pyInt_pyStrInt (t : Int) : pyInt (pyStrInt t) = some t := by
  rw [pyInt, stripData_of_nonspace (pyStrInt_nonspace t), pyIntCore_pyStrInt]

/-! ### Program constants and the Namer (sessions.py lines 12-14, 29-38, 208-213) -/

/-- Root directory for per-session artifacts (`SESSIONS_DIR`). -/
def SESSIONS_DIR : String := "/tmp/claude-sessions"

/-- Path of the tmux binary (`TMUX`). -/
def TMUX : String := "/usr/bin/tmux"

/-- Path of the agent binary (`CLAUDE`). -/
def CLAUDE : String := "/usr/local/bin/claude"

/-- Artifact directory of a session: `SESSIONS_DIR / session_name`. -/
def sessionDirOf (name : String) : String := SESSIONS_DIR ++ "/" ++ name

/-- Path of a session's config record: `session_dir / "config.md"`. -/
def configPathOf (name : String) : String := sessionDirOf name ++ "/config.md"

/-- Path of a session's instructions document: `session_dir / "prompt.txt"`. -/
def promptPathOf (name : String) : String := sessionDirOf name ++ "/prompt.txt"

/-- Candidate name probed with numeric suffix: `f"{base_name}-{suffix}"`. -/
def nameWithSuffix (base : String) (s : Nat) : String := base ++ "-" ++ pyStrNat s

/-- Message of the `RuntimeError` raised when the probe loop is exhausted. -/
def exhaustedMsg (base last : String) : String :=
  "Could not find available session name (tried " ++ base ++ " through " ++ last ++ ")"

/-- The collision-probe loop of `spawn_session` (`for suffix in range(2, 11)`
with its `else` clause): probe the current candidate; if free, use it,
otherwise move to the next suffixed candidate; after the loop, re-probe the
final candidate and fail if it is also taken. -/
def namerLoop (ex : String → Bool) (base : String) : String → List Nat → Except String String
  | name, [] =>
    if ex name then Except.error (exhaustedMsg base name) else Except.ok name
  | name, s :: rest =>
    if ex name then namerLoop ex base (nameWithSuffix base s) rest
    else Except.ok name

/-- Session-name generation of `spawn_session` for a given base name (the
base is `f"claude-{utc timestamp}"`, an input here) over a liveness probe. -/
def namer (ex : String → Bool) (base : String) : Except String String :=
  namerLoop ex base base [2, 3, 4, 5, 6, 7, 8, 9, 10]

/-! ### World state and effects -/

/-- External state touched by the program: the tmux server's live session
names, the set of directories on disk, and the files on disk (most recent
write first; `fsRead` returns the first binding of a path). -/
structure World where
  tmux : List String
  dirs : List String
  fs : List (String × String)
deriving DecidableEq

/-- External effects, in the order the program performs them. -/
inductive Event where
  | mkdirp (dir : String)
  | writeFile (path content : String)
  | tmuxNewSession (name cwd cmd : String)
  | sleep (secs : Nat)
  | tmuxLoadBuffer (buf path : String)
  | tmuxPasteBuffer (buf target : String)
  | tmuxSendKeys (target : String) (keys : List String)
  | tmuxKillSession (name : String)
  | rmtree (dir : String)
deriving DecidableEq

/-- Arguments of `spawn_session`. -/
structure SpawnInput where
  bot_token : String
  thread_id : Int
  prompt : Option String
  working_dir : String
  plugin_dir : String

/-- Exit codes of the four `check=True` subprocess calls of `spawn_session`,
external inputs of the model (a non-zero code makes `subprocess.run` raise). -/
structure SpawnCodes where
  newSession : Nat
  loadBuffer : Nat
  pasteBuffer : Nat
  sendKeys : Nat

/-- The probe `_tmux_session_exists`: `tmux has-session` exits 0 exactly when
the named session is live. -/
def tmux_session_exists (w : World) (name : String) : Bool := w.tmux.contains name

/-- Read a file: first binding of the path, if any. -/
def fsRead (fs : List (String × String)) (p : String) : Option String := fs.lookup p

/-- Wholly-contained-in-directory test used to model recursive deletion. -/
def pathUnder (dir p : String) : Bool :=
  p == dir || (dir ++ "/").data.isPrefixOf p.data

/-- Model of `shutil.rmtree(dir, ignore_errors=True)` when it succeeds:
remove the directory, everything below it, and every file under it. -/
def removeTree (w : World) (dir : String) : World :=
  { w with dirs := w.dirs.filter (fun d => !(pathUnder dir d)),
           fs := w.fs.filter (fun e => !(pathUnder dir e.1)) }

/-! ### Artifact contents (sessions.py lines 44-117) -/

/-- Content of `config.md` as written by `spawn_session` (the dedented
front-matter block). -/
def configText (bot_token : String) (thread_id : Int) : String :=
  "---\nbot_token: " ++ bot_token ++ "\nchannel_id: " ++ pyStrInt thread_id ++
    "\ndefault_timeout: 86400\n---\n"

/-- The fixed instructions document (the dedented `prompt_text` f-string),
with the config path and session name interpolated. -/
def promptTextCore (config_abs session_name : String) : String :=
  "You are now in **Discord-only mode**. All communication with the user happens through Discord — not the terminal.\n\n" ++
  "## Rules\n\n" ++
  "1. **Every message goes through Discord.** Use `discord-notify` for all communication: asking questions, reporting progress, sharing results, requesting clarification, or checking in. **Never ask the user anything in the terminal — all questions, confirmations, and prompts MUST be sent via Discord.** Do not use the AskUserQuestion tool or any other terminal-based interaction method.\n\n" ++
  "2. **Use `\x2d-wait` only when you need user input** (asking a question, requesting confirmation, waiting for instructions). Do NOT use `\x2d-wait` for one-way status updates or progress reports — just send the message and continue working.\n\n" ++
  "3. **When using `\x2d-wait`, set `\x2d-timeout 86400`** (4 hours) so the user has plenty of time to respond. Always set Bash tool timeout to `600000` (maximum) for any discord-notify call that uses `\x2d-wait`.\n\n" ++
  "4. **Minimize terminal output.** Only print brief mechanical status lines like `Sending to Discord...` or `Received reply from user.` Do not duplicate message content or questions in the terminal.\n\n" ++
  "5. **Parse replies and act on them.** When the user replies on Discord, treat their response exactly as if they typed it in the terminal. Continue working based on their instructions.\n\n" ++
  "6. **Exit conditions.** If the user replies with \"exit\", \"stop\", or \"done\" (case-insensitive), end the session. Confirm on Discord that the session has ended, then exit.\n\n" ++
  "## Command Templates\n\n" ++
  "For ALL discord-notify calls, you MUST use this exact config path.\n\n" ++
  "**When you need user input (questions, confirmations):**\n" ++
  "```bash\nuv run \x2d-project $\x7bCLAUDE_PLUGIN_ROOT\x7d discord-notify \\\n  \x2d-message \"<your message here>\" \\\n  \x2d-wait \\\n  \x2d-timeout 86400 \\\n  \x2d-config \"" ++ config_abs ++ "\"\n```\n\n" ++
  "**When sending a one-way update (progress, status, results):**\n" ++
  "```bash\nuv run \x2d-project $\x7bCLAUDE_PLUGIN_ROOT\x7d discord-notify \\\n  \x2d-message \"<your message here>\" \\\n  \x2d-config \"" ++ config_abs ++ "\"\n```\n\n" ++
  "**CRITICAL:** Always use `\x2d-config \"" ++ config_abs ++ "\"` — do NOT use a relative config path. This ensures your messages go to the correct Discord thread.\n\n" ++
  "## Getting Started\n\n" ++
  "Send an initial greeting to Discord now:\n\n" ++
  "```bash\nuv run \x2d-project $\x7bCLAUDE_PLUGIN_ROOT\x7d discord-notify \\\n  \x2d-message \"Claude session `" ++ session_name ++ "` is active. I\x27ll send all messages here. What would you like me to work on?\" \\\n  \x2d-wait \\\n  \x2d-timeout 86400 \\\n  \x2d-config \"" ++ config_abs ++ "\"\n```\n\n" ++
  "Then read the user\x27s reply and proceed accordingly.\n"

/-- The final task section appended for a truthy initial prompt. -/
def taskSection (p : String) : String :=
  "\n## Initial Task\n\nThe user has asked you to work on the following:\n\n" ++ p ++ "\n"

/-- Content of `prompt.txt`: the instructions document, with the task section
appended exactly when the Python `if prompt:` test is true (`prompt` neither
`None` nor the empty string). -/
def promptText (config_abs session_name : String) (prompt : Option String) : String :=
  let base := promptTextCore config_abs session_name
  match prompt with
  | none => base
  | some p => if p = "" then base else base ++ taskSection p

/-- The shell command launched inside the new tmux session (the `env -u ...`
argument of `tmux new-session`; `config_path.resolve()` is the identity here
because the config path is already absolute). -/
def agentCmd (plugin_dir config_path : String) : String :=
  "env -u CLAUDECODE CLAUDE_PLUGIN_ROOT=" ++ plugin_dir ++ " SESSION_CONFIG=" ++
    config_path ++ " " ++ CLAUDE ++ " \x2d-dangerously-skip-permissions \x2d-plugin-dir " ++
    plugin_dir

/-! ### spawn_session (sessions.py lines 17-152) -/

/-- Model of `spawn_session`: name generation, artifact writes, then the four
`check=True` subprocess steps, stopping at the first non-zero exit code.
Returns the result, the final world, and the effect trace. -/
def spawn_session (codes : SpawnCodes) (base_name : String) (inp : SpawnInput) (w : World) :
    Except String String × World × List Event :=
  match namer (fun n => tmux_session_exists w n) base_name with
  | Except.error e => (Except.error e, w, [])
  | Except.ok session_name =>
    let session_dir := sessionDirOf session_name
    let config_path := configPathOf session_name
    let configC := configText inp.bot_token inp.thread_id
    let prompt_path := promptPathOf session_name
    let promptC := promptText config_path session_name inp.prompt
    let w1 : World :=
      { w with dirs := SESSIONS_DIR :: session_dir :: w.dirs,
               fs := (prompt_path, promptC) :: (config_path, configC) :: w.fs }
    let tr1 : List Event :=
      [Event.mkdirp session_dir, Event.writeFile config_path configC,
       Event.writeFile prompt_path promptC,
       Event.tmuxNewSession session_name inp.working_dir (agentCmd inp.plugin_dir config_path)]
    if codes.newSession ≠ 0 then
      (Except.error "tmux new-session returned non-zero exit status", w1, tr1)
    else
      let w2 : World := { w1 with tmux := session_name :: w1.tmux }
      let tr2 := tr1 ++ [Event.sleep 5, Event.tmuxLoadBuffer "prompt" prompt_path]
      if codes.loadBuffer ≠ 0 then
        (Except.error "tmux load-buffer returned non-zero exit status", w2, tr2)
      else
        let tr3 := tr2 ++ [Event.tmuxPasteBuffer "prompt" session_name]
        if codes.pasteBuffer ≠ 0 then
          (Except.error "tmux paste-buffer returned non-zero exit status", w2, tr3)
        else
          let tr4 := tr3 ++ [Event.sleep 1, Event.tmuxSendKeys session_name ["", "Enter"]]
          if codes.sendKeys ≠ 0 then
            (Except.error "tmux send-keys returned non-zero exit status", w2, tr4)
          else (Except.ok session_name, w2, tr4)

/-! ### list_sessions (sessions.py lines 155-177) -/

/-- An entry of the `list_sessions` result. -/
structure SessionEntry where
  name : String
  created : String
deriving DecidableEq

/-- Rendering of one entry's `created` field: parse the raw timestamp as an
integer and format it (`fmt` stands for `datetime.fromtimestamp(_, utc).
strftime("%Y-%m-%d %H:%M:%S UTC")`); on parse failure keep the raw value. -/
def formatEntry (fmt : Int → String) (ts : String) : String :=
  match pyInt ts with
  | some t => fmt t
  | none => ts

/-- The line-parsing loop of `list_sessions` over the stripped stdout lines:
`line.split(" ", 1)`, keep lines with two parts whose first part starts with
`claude-`. -/
def parseSessionLines (fmt : Int → String) : List String → List SessionEntry
  | [] => []
  | line :: rest =>
    (match pySplit1 line ' ' with
     | [n, ts] =>
       if pyStartsWith n "claude-" then [{ name := n, created := formatEntry fmt ts }]
       else []
     | _ => []) ++ parseSessionLines fmt rest

/-- Model of `list_sessions`, over the exit code and stdout of
`tmux list-sessions -F "#\x7bsession_name\x7d #\x7bsession_created\x7d"`. -/
def list_sessions (fmt : Int → String) (code : Nat) (stdout : String) : List SessionEntry :=
  if code ≠ 0 then []
  else parseSessionLines fmt (pySplitlines (pyStrip stdout))

/-! ### get_session_thread_id (sessions.py lines 180-192) -/

/-- The line scan of `get_session_thread_id`: on the first stripped line that
starts with `channel_id:`, return `int(line.split(":", 1)[1].strip())`
(`none` when `int` raises); later lines are not examined. -/
def channelScan : List String → Option Int
  | [] => none
  | l :: rest =>
    let line := pyStrip l
    if pyStartsWith line "channel_id:" then
      match pySplit1 line ':' with
      | [_, v] => pyInt (pyStrip v)
      | _ => none
    else channelScan rest

/-- Model of `get_session_thread_id`: read the session's config file and scan
its lines; `none` when the file is absent or parsing fails. -/
def get_session_thread_id (fs : List (String × String)) (name : String) : Option Int :=
  match fsRead fs (configPathOf name) with
  | none => none
  | some content => channelScan (pySplitlines content)

/-! ### kill_session (sessions.py lines 195-205) -/

/-- Model of `kill_session`: run `tmux kill-session` (exit 0 exactly when the
session was live; the session is removed from the server either way), then,
if the artifact directory exists, `shutil.rmtree(..., ignore_errors=True)` —
`cleanupOk` says whether that deletion succeeds, and its errors are swallowed.
Returns `returncode == 0` of the kill. -/
def kill_session (cleanupOk : Bool) (w : World) (name : String) : Bool × World × List Event :=
  let killOk := tmux_session_exists w name
  let w1 : World := { w with tmux := w.tmux.erase name }
  let dir := sessionDirOf name
  if w1.dirs.contains dir then
    let w2 := if cleanupOk then removeTree w1 dir else w1
    (killOk, w2, [Event.tmuxKillSession name, Event.rmtree dir])
  else
    (killOk, w1, [Event.tmuxKillSession name])

/-! ### Shared concrete test fixtures -/

/-- A world with no live sessions, no directories and no files. -/
def emptyWorld : World := ⟨[], [], []⟩

/-- All four subprocess steps exit with status 0. -/
def okCodes : SpawnCodes := ⟨0, 0, 0, 0⟩

/-! ### Generic list helpers -/

theorem contains_eq_decide_mem (l : List String) (x : String) :
    l.contains x = decide (x ∈ l) := by
  induction l with
  | nil => simp
  | cons a as ih => simp [List.contains_cons, ih]

/-! ### Claim C7: list query failure yields the empty list -/

/-- C7: whenever the `tmux list-sessions` query exits with a non-zero status,
`list_sessions` returns the empty list instead of an error, for every stdout
and timestamp formatter. -/
theorem list_sessions_query_failure_empty (fmt : Int → String) (code : Nat)
    (stdout : String) (h : code ≠ 0) : list_sessions fmt code stdout = [] := by
  simp [list_sessions, h]

theorem list_sessions_query_failure_empty_witness :
    list_sessions (fun _ => "") 1 "claude-a 5\nclaude-b 6" = [] :=
  list_sessions_query_failure_empty (fun _ => "") 1 "claude-a 5\nclaude-b 6" (by decide)

/-! ### Claim C5: kill_session's return value reflects only the tmux kill -/

/-- C5: `kill_session` always runs the tmux kill first (the trace starts with
it); whenever the artifact directory exists it then attempts the recursive
deletion (for both cleanup outcomes, errors swallowed); when the directory is
missing it touches no file; and its boolean result equals the kill's success
(`returncode == 0`, i.e. the session was live), for every cleanup outcome. -/
theorem kill_session_return_reflects_kill_only (cleanupOk : Bool) (w : World)
    (name : String) :
    (kill_session cleanupOk w name).1 = tmux_session_exists w name ∧
    (kill_session cleanupOk w name).2.2.head? = some (Event.tmuxKillSession name) ∧
    (sessionDirOf name ∈ w.dirs →
      Event.rmtree (sessionDirOf name) ∈ (kill_session cleanupOk w name).2.2) ∧
    (sessionDirOf name ∉ w.dirs →
      (kill_session cleanupOk w name).2.1.fs = w.fs ∧
      (kill_session cleanupOk w name).2.1.dirs = w.dirs) := by
  by_cases hd : sessionDirOf name ∈ w.dirs
  · simp [kill_session, contains_eq_decide_mem, hd]
  · simp [kill_session, contains_eq_decide_mem, hd]

theorem kill_session_return_reflects_kill_only_witness :
    (kill_session false ⟨["claude-x"], ["/tmp/claude-sessions/claude-x"], []⟩
        "claude-x").1 = true ∧
    Event.rmtree "/tmp/claude-sessions/claude-x" ∈
      (kill_session false ⟨["claude-x"], ["/tmp/claude-sessions/claude-x"], []⟩
        "claude-x").2.2 := by
  have h := kill_session_return_reflects_kill_only false
    ⟨["claude-x"], ["/tmp/claude-sessions/claude-x"], []⟩ "claude-x"
  exact ⟨h.1, h.2.2.1 (by decide)⟩

/-! ### Claim C6: killing a never-created session mutates nothing -/

/-- C6: for a name with no live tmux session and no artifact directory,
`kill_session` returns `false` and the world is unchanged (the only effect is
the failing kill command itself). -/
theorem kill_session_unknown_name_no_mutation (cleanupOk : Bool) (w : World)
    (name : String) (h1 : name ∉ w.tmux) (h2 : sessionDirOf name ∉ w.dirs) :
    kill_session cleanupOk w name = (false, w, [Event.tmuxKillSession name]) := by
  have he : w.tmux.erase name = w.tmux := List.erase_of_not_mem h1
  have hc : w.tmux.contains name = false := by
    rw [contains_eq_decide_mem]; exact decide_eq_false h1
  simp [kill_session, tmux_session_exists, hc, he, contains_eq_decide_mem, h1, h2]

theorem kill_session_unknown_name_no_mutation_witness :
    kill_session true ⟨["claude-x"], ["/tmp/claude-sessions/claude-x"],
        [("/tmp/claude-sessions/claude-x/config.md", "c")]⟩ "claude-ghost" =
      (false, ⟨["claude-x"], ["/tmp/claude-sessions/claude-x"],
        [("/tmp/claude-sessions/claude-x/config.md", "c")]⟩,
       [Event.tmuxKillSession "claude-ghost"]) :=
  kill_session_unknown_name_no_mutation true _ "claude-ghost" (by decide) (by decide)

/-! ### Claim C9: get_session_thread_id returns absent on all failure paths -/

theorem channelScan_of_no_channel_line (ls : List String)
    (h : ∀ l ∈ ls, ¬pyStartsWith (pyStrip l) "channel_id:" = true) :
    channelScan ls = none := by
  induction ls with
  | nil => rfl
  | cons x rest ih =>
    have hx : pyStartsWith (pyStrip x) "channel_id:" = false := by
      simpa using h x (by simp)
    simp only [channelScan]
    rw [if_neg (by simp [hx])]
    exact ih (fun l hl => h l (by simp [hl]))

theorem channelScan_of_find_some {ls : List String} {l : String}
    (hf : ls.find? (fun x => pyStartsWith (pyStrip x) "channel_id:") = some l) :
    channelScan ls = (match pySplit1 (pyStrip l) ':' with
      | [_, v] => pyInt (pyStrip v)
      | _ => none) := by
  induction ls with
  | nil => simp at hf
  | cons x rest ih =>
    by_cases hs : pyStartsWith (pyStrip x) "channel_id:" = true
    · have hstep : List.find? (fun y => pyStartsWith (pyStrip y) "channel_id:")
          (x :: rest) = some x := List.find?_cons_of_pos _ hs
      rw [hstep] at hf
      obtain rfl : x = l := by simpa using hf
      simp only [channelScan]
      rw [if_pos hs]
    · have hstep : List.find? (fun y => pyStartsWith (pyStrip y) "channel_id:")
          (x :: rest) = List.find? (fun y => pyStartsWith (pyStrip y) "channel_id:")
            rest := List.find?_cons_of_neg _ (by simpa using hs)
      rw [hstep] at hf
      simp only [channelScan]
      rw [if_neg (by simp [show pyStartsWith (pyStrip x) "channel_id:" = false from
        by simpa using hs])]
      exact ih hf

/-- C9: `get_session_thread_id` is a total function (it never raises). It
returns `none` when the config file is absent; when the config has no
`channel_id:` line; and when the first `channel_id:` line of the config —
the only line the scan consults for a value, the rest of the config being
arbitrary (other fields may well parse) — has a value on which `int` fails. -/
theorem get_session_thread_id_none_cases (fs : List (String × String)) (name : String) :
    (fsRead fs (configPathOf name) = none → get_session_thread_id fs name = none) ∧
    (∀ content, fsRead fs (configPathOf name) = some content →
      ((pySplitlines content).find?
          (fun x => pyStartsWith (pyStrip x) "channel_id:") = none →
        get_session_thread_id fs name = none) ∧
      (∀ l, (pySplitlines content).find?
          (fun x => pyStartsWith (pyStrip x) "channel_id:") = some l →
        pyInt (pyStrip ((pySplit1 (pyStrip l) ':').getD 1 "")) = none →
        get_session_thread_id fs name = none)) := by
  refine ⟨?_, ?_⟩
  · intro h; simp [get_session_thread_id, h]
  · intro content hc
    refine ⟨?_, ?_⟩
    · intro hf
      simp only [get_session_thread_id, hc]
      refine channelScan_of_no_channel_line _ (fun l hl => ?_)
      simpa using List.find?_eq_none.mp hf l hl
    · intro l hf hv
      simp only [get_session_thread_id, hc]
      rw [channelScan_of_find_some hf]
      rcases hsp : pySplit1 (pyStrip l) ':' with _ | ⟨a, tl⟩
      · rfl
      · rcases tl with _ | ⟨v, tl2⟩
        · rfl
        · rcases tl2 with _ | ⟨x, xs⟩
          · rw [hsp] at hv
            show pyInt (pyStrip v) = none
            exact hv
          · rfl

/-- Config file fixture in the exact format `spawn_session` writes (its
`default_timeout` value parses fine), except that the `channel_id` value is
not an integer. -/
def fs9 : List (String × String) :=
  [("/tmp/claude-sessions/s1/config.md",
    "---\nbot_token: tok\nchannel_id: abc\ndefault_timeout: 86400\n---\n")]

theorem get_session_thread_id_none_cases_witness :
    get_session_thread_id fs9 "s1" = none ∧ get_session_thread_id fs9 "nope" = none :=
  ⟨((get_session_thread_id_none_cases fs9 "s1").2
      "---\nbot_token: tok\nchannel_id: abc\ndefault_timeout: 86400\n---\n"
      (by decide)).2 "channel_id: abc" (by decide) (by decide),
   (get_session_thread_id_none_cases fs9 "nope").1 (by decide)⟩

/-! ### Claim C10: an empty initial prompt behaves exactly like no prompt -/

theorem promptText_empty (ca sn : String) :
    promptText ca sn (some "") = promptText ca sn none := rfl

theorem strAppendAssoc (a b c : String) : a ++ b ++ c = a ++ (b ++ c) := by
  apply String.ext
  simp [String.data_append]

/-- C10: `spawn_session` treats `prompt = ""` exactly like `prompt = None`
(whole run identical, so the written instructions document has no task
section), while for every non-empty prompt the written document is the
no-prompt document with the `Initial Task` section appended at the end, the
prompt text appearing verbatim at its end. -/
theorem spawn_empty_prompt_like_absent :
    (∀ (codes : SpawnCodes) (base tok : String) (t : Int) (wd pd : String) (w : World),
      spawn_session codes base ⟨tok, t, some "", wd, pd⟩ w =
        spawn_session codes base ⟨tok, t, none, wd, pd⟩ w) ∧
    (∀ ca sn p, p ≠ "" →
      promptText ca sn (some p) = promptText ca sn none ++ taskSection p ∧
      ∃ pre, promptText ca sn (some p) = pre ++ (p ++ "\n")) := by
  constructor
  · intro codes base tok t wd pd w
    rcases hn : namer (fun n => tmux_session_exists w n) base with e | sn0
    · simp [spawn_session, hn]
    · simp [spawn_session, hn, promptText_empty]
  · intro ca sn p hp
    constructor
    · simp [promptText, hp]
    · refine ⟨promptTextCore ca sn ++
        "\n## Initial Task\n\nThe user has asked you to work on the following:\n\n", ?_⟩
      apply String.ext
      simp [promptText, hp, taskSection, String.data_append, List.append_assoc]

theorem spawn_empty_prompt_like_absent_witness :
    spawn_session okCodes "claude-b" ⟨"tok", 1, some "", "/w", "/p"⟩ emptyWorld =
      spawn_session okCodes "claude-b" ⟨"tok", 1, none, "/w", "/p"⟩ emptyWorld ∧
    promptText "/c" "s" (some "go") = promptText "/c" "s" none ++ taskSection "go" :=
  ⟨spawn_empty_prompt_like_absent.1 okCodes "claude-b" "tok" 1 "/w" "/p" emptyWorld,
   (spawn_empty_prompt_like_absent.2 "/c" "s" "go" (by decide)).1⟩

/-! ### Claim C1: name probing in one timestamp second -/

/-- The candidates `spawn_session` probes for one base name, in probe order:
the base itself, then `base-2` through `base-10`. -/
def probeNames (base : String) : List String :=
  base :: (List.range' 2 9).map (nameWithSuffix base)

theorem loop_taken {ex : String → Bool} {base name : String} {s : Nat}
    {rest : List Nat} (h : ex name = true) :
    namerLoop ex base name (s :: rest) =
      namerLoop ex base (nameWithSuffix base s) rest := by
  simp [namerLoop, h]

theorem loop_free_cons {ex : String → Bool} {base name : String} {s : Nat}
    {rest : List Nat} (h : ex name = false) :
    namerLoop ex base name (s :: rest) = Except.ok name := by
  simp [namerLoop, h]

theorem loop_nil_taken {ex : String → Bool} {base name : String}
    (h : ex name = true) :
    namerLoop ex base name [] = Except.error (exhaustedMsg base name) := by
  simp [namerLoop, h]

theorem loop_nil_free {ex : String → Bool} {base name : String}
    (h : ex name = false) :
    namerLoop ex base name [] = Except.ok name := by
  simp [namerLoop, h]

theorem base_ne_nws (base : String) (s : Nat) : base ≠ nameWithSuffix base s := by
  apply strNeOfLength
  simp only [nameWithSuffix, String.length_append]
  have h1 : "-".length = 1 := rfl
  omega

theorem nws_ne (base : String) {s t : Nat} (h : pyStrNat s ≠ pyStrNat t) :
    nameWithSuffix base s ≠ nameWithSuffix base t := by
  unfold nameWithSuffix
  intro he
  exact h (strAppendCancelLeft (base ++ "-") he)

theorem contains_true_of_mem {l : List String} {x : String} (h : x ∈ l) :
    l.contains x = true := by
  rw [contains_eq_decide_mem]; exact decide_eq_true h

theorem contains_false_of_not_mem {l : List String} {x : String} (h : x ∉ l) :
    l.contains x = false := by
  rw [contains_eq_decide_mem]; exact decide_eq_false h

/-- C1 counterexample: with the nine names of requests 1-9 of one second all
live (`base` through `base-9`), the tenth request does NOT fail: the probe
loop reaches `base-10`, the post-loop re-check finds it free, and the request
succeeds with `base-10`. -/
theorem namer_tenth_request_succeeds :
    namer (["claude-20260101-120000", "claude-20260101-120000-2",
      "claude-20260101-120000-3", "claude-20260101-120000-4",
      "claude-20260101-120000-5", "claude-20260101-120000-6",
      "claude-20260101-120000-7", "claude-20260101-120000-8",
      "claude-20260101-120000-9"].contains) "claude-20260101-120000" =
      Except.ok "claude-20260101-120000-10" := by rfl

/-- C1 (amended): within one timestamp second the Namer hands out TEN
pairwise-distinct names (`base`, then `base-2` through `base-10`), each
request finding all previously assigned names live; it is the ELEVENTH
request that fails with the Exhausted error, whose message names the probed
range from the base name to the last suffixed name `base-10`. -/
theorem namer_ten_names_then_exhausted (base : String) :
    (probeNames base).Pairwise (· ≠ ·) ∧
    (∀ k, k < 10 →
      namer (((probeNames base).take k).contains) base =
        Except.ok ((probeNames base).getD k "")) ∧
    namer ((probeNames base).contains) base =
      Except.error (exhaustedMsg base (nameWithSuffix base 10)) := by
  refine ⟨?_, ?_, ?_⟩
  · show List.Pairwise (· ≠ ·) [base, nameWithSuffix base 2, nameWithSuffix base 3,
      nameWithSuffix base 4, nameWithSuffix base 5, nameWithSuffix base 6,
      nameWithSuffix base 7, nameWithSuffix base 8, nameWithSuffix base 9,
      nameWithSuffix base 10]
    refine List.Pairwise.cons ?_ (List.Pairwise.cons ?_ (List.Pairwise.cons ?_
      (List.Pairwise.cons ?_ (List.Pairwise.cons ?_ (List.Pairwise.cons ?_
      (List.Pairwise.cons ?_ (List.Pairwise.cons ?_ (List.Pairwise.cons ?_
      (List.Pairwise.cons ?_ List.Pairwise.nil))))))))) <;>
      intro a' ha' <;> fin_cases ha' <;>
      first
        | exact base_ne_nws base _
        | exact nws_ne base (by decide)
  · intro k hk
    interval_cases k
    · show namerLoop (List.contains []) base base [2, 3, 4, 5, 6, 7, 8, 9, 10] =
        Except.ok base
      rw [loop_free_cons (contains_false_of_not_mem (by simp))]
    · show namerLoop ([base].contains) base base [2, 3, 4, 5, 6, 7, 8, 9, 10] =
        Except.ok (nameWithSuffix base 2)
      rw [loop_taken (contains_true_of_mem (by simp)),
        loop_free_cons (contains_false_of_not_mem (by
          simp only [List.mem_singleton]
          exact (base_ne_nws base 2).symm))]
    · show namerLoop ([base, nameWithSuffix base 2].contains) base base
        [2, 3, 4, 5, 6, 7, 8, 9, 10] = Except.ok (nameWithSuffix base 3)
      rw [loop_taken (contains_true_of_mem (by simp)),
        loop_taken (contains_true_of_mem (by simp)),
        loop_free_cons (contains_false_of_not_mem (by
          simp only [List.mem_cons, List.not_mem_nil, or_false, not_or]
          exact ⟨(base_ne_nws base 3).symm, nws_ne base (by decide)⟩))]
    · show namerLoop ([base, nameWithSuffix base 2, nameWithSuffix base 3].contains)
        base base [2, 3, 4, 5, 6, 7, 8, 9, 10] = Except.ok (nameWithSuffix base 4)
      rw [loop_taken (contains_true_of_mem (by simp)),
        loop_taken (contains_true_of_mem (by simp)),
        loop_taken (contains_true_of_mem (by simp)),
        loop_free_cons (contains_false_of_not_mem (by
          simp only [List.mem_cons, List.not_mem_nil, or_false, not_or]
          exact ⟨(base_ne_nws base 4).symm, nws_ne base (by decide),
            nws_ne base (by decide)⟩))]
    · show namerLoop ([base, nameWithSuffix base 2, nameWithSuffix base 3,
        nameWithSuffix base 4].contains) base base [2, 3, 4, 5, 6, 7, 8, 9, 10] =
        Except.ok (nameWithSuffix base 5)
      rw [loop_taken (contains_true_of_mem (by simp)),
        loop_taken (contains_true_of_mem (by simp)),
        loop_taken (contains_true_of_mem (by simp)),
        loop_taken (contains_true_of_mem (by simp)),
        loop_free_cons (contains_false_of_not_mem (by
          simp only [List.mem_cons, List.not_mem_nil, or_false, not_or]
          exact ⟨(base_ne_nws base 5).symm, nws_ne base (by decide),
            nws_ne base (by decide), nws_ne base (by decide)⟩))]
    · show namerLoop ([base, nameWithSuffix base 2, nameWithSuffix base 3,
        nameWithSuffix base 4, nameWithSuffix base 5].contains) base base
        [2, 3, 4, 5, 6, 7, 8, 9, 10] = Except.ok (nameWithSuffix base 6)
      rw [loop_taken (contains_true_of_mem (by simp)),
        loop_taken (contains_true_of_mem (by simp)),
        loop_taken (contains_true_of_mem (by simp)),
        loop_taken (contains_true_of_mem (by simp)),
        loop_taken (contains_true_of_mem (by simp)),
        loop_free_cons (contains_false_of_not_mem (by
          simp only [List.mem_cons, List.not_mem_nil, or_false, not_or]
          exact ⟨(base_ne_nws base 6).symm, nws_ne base (by decide),
            nws_ne base (by decide), nws_ne base (by decide),
            nws_ne base (by decide)⟩))]
    · show namerLoop ([base, nameWithSuffix base 2, nameWithSuffix base 3,
        nameWithSuffix base 4, nameWithSuffix base 5, nameWithSuffix base 6].contains)
        base base [2, 3, 4, 5, 6, 7, 8, 9, 10] = Except.ok (nameWithSuffix base 7)
      rw [loop_taken (contains_true_of_mem (by simp)),
        loop_taken (contains_true_of_mem (by simp)),
        loop_taken (contains_true_of_mem (by simp)),
        loop_taken (contains_true_of_mem (by simp)),
        loop_taken (contains_true_of_mem (by simp)),
        loop_taken (contains_true_of_mem (by simp)),
        loop_free_cons (contains_false_of_not_mem (by
          simp only [List.mem_cons, List.not_mem_nil, or_false, not_or]
          exact ⟨(base_ne_nws base 7).symm, nws_ne base (by decide),
            nws_ne base (by decide), nws_ne base (by decide),
            nws_ne base (by decide), nws_ne base (by decide)⟩))]
    · show namerLoop ([base, nameWithSuffix base 2, nameWithSuffix base 3,
        nameWithSuffix base 4, nameWithSuffix base 5, nameWithSuffix base 6,
        nameWithSuffix base 7].contains) base base [2, 3, 4, 5, 6, 7, 8, 9, 10] =
        Except.ok (nameWithSuffix base 8)
      rw [loop_taken (contains_true_of_mem (by simp)),
        loop_taken (contains_true_of_mem (by simp)),
        loop_taken (contains_true_of_mem (by simp)),
        loop_taken (contains_true_of_mem (by simp)),
        loop_taken (contains_true_of_mem (by simp)),
        loop_taken (contains_true_of_mem (by simp)),
        loop_taken (contains_true_of_mem (by simp)),
        loop_free_cons (contains_false_of_not_mem (by
          simp only [List.mem_cons, List.not_mem_nil, or_false, not_or]
          exact ⟨(base_ne_nws base 8).symm, nws_ne base (by decide),
            nws_ne base (by decide), nws_ne base (by decide),
            nws_ne base (by decide), nws_ne base (by decide),
            nws_ne base (by decide)⟩))]
    · show namerLoop ([base, nameWithSuffix base 2, nameWithSuffix base 3,
        nameWithSuffix base 4, nameWithSuffix base 5, nameWithSuffix base 6,
        nameWithSuffix base 7, nameWithSuffix base 8].contains) base base
        [2, 3, 4, 5, 6, 7, 8, 9, 10] = Except.ok (nameWithSuffix base 9)
      rw [loop_taken (contains_true_of_mem (by simp)),
        loop_taken (contains_true_of_mem (by simp)),
        loop_taken (contains_true_of_mem (by simp)),
        loop_taken (contains_true_of_mem (by simp)),
        loop_taken (contains_true_of_mem (by simp)),
        loop_taken (contains_true_of_mem (by simp)),
        loop_taken (contains_true_of_mem (by simp)),
        loop_taken (contains_true_of_mem (by simp)),
        loop_free_cons (contains_false_of_not_mem (by
          simp only [List.mem_cons, List.not_mem_nil, or_false, not_or]
          exact ⟨(base_ne_nws base 9).symm, nws_ne base (by decide),
            nws_ne base (by decide), nws_ne base (by decide),
            nws_ne base (by decide), nws_ne base (by decide),
            nws_ne base (by decide), nws_ne base (by decide)⟩))]
    · show namerLoop ([base, nameWithSuffix base 2, nameWithSuffix base 3,
        nameWithSuffix base 4, nameWithSuffix base 5, nameWithSuffix base 6,
        nameWithSuffix base 7, nameWithSuffix base 8, nameWithSuffix base 9].contains)
        base base [2, 3, 4, 5, 6, 7, 8, 9, 10] = Except.ok (nameWithSuffix base 10)
      rw [loop_taken (contains_true_of_mem (by simp)),
        loop_taken (contains_true_of_mem (by simp)),
        loop_taken (contains_true_of_mem (by simp)),
        loop_taken (contains_true_of_mem (by simp)),
        loop_taken (contains_true_of_mem (by simp)),
        loop_taken (contains_true_of_mem (by simp)),
        loop_taken (contains_true_of_mem (by simp)),
        loop_taken (contains_true_of_mem (by simp)),
        loop_taken (contains_true_of_mem (by simp)),
        loop_nil_free (contains_false_of_not_mem (by
          simp only [List.mem_cons, List.not_mem_nil, or_false, not_or]
          exact ⟨(base_ne_nws base 10).symm, nws_ne base (by decide),
            nws_ne base (by decide), nws_ne base (by decide),
            nws_ne base (by decide), nws_ne base (by decide),
            nws_ne base (by decide), nws_ne base (by decide),
            nws_ne base (by decide)⟩))]
  · show namerLoop ([base, nameWithSuffix base 2, nameWithSuffix base 3,
      nameWithSuffix base 4, nameWithSuffix base 5, nameWithSuffix base 6,
      nameWithSuffix base 7, nameWithSuffix base 8, nameWithSuffix base 9,
      nameWithSuffix base 10].contains) base base [2, 3, 4, 5, 6, 7, 8, 9, 10] =
      Except.error (exhaustedMsg base (nameWithSuffix base 10))
    rw [loop_taken (contains_true_of_mem (by simp)),
      loop_taken (contains_true_of_mem (by simp)),
      loop_taken (contains_true_of_mem (by simp)),
      loop_taken (contains_true_of_mem (by simp)),
      loop_taken (contains_true_of_mem (by simp)),
      loop_taken (contains_true_of_mem (by simp)),
      loop_taken (contains_true_of_mem (by simp)),
      loop_taken (contains_true_of_mem (by simp)),
      loop_taken (contains_true_of_mem (by simp)),
      loop_nil_taken (contains_true_of_mem (by simp))]

theorem namer_ten_names_then_exhausted_witness :
    namer (((probeNames "claude-20260103-000000").take 4).contains)
      "claude-20260103-000000" =
        Except.ok ((probeNames "claude-20260103-000000").getD 4 "") ∧
    namer ((probeNames "claude-20260103-000000").contains) "claude-20260103-000000" =
      Except.error (exhaustedMsg "claude-20260103-000000"
        (nameWithSuffix "claude-20260103-000000" 10)) :=
  ⟨(namer_ten_names_then_exhausted "claude-20260103-000000").2.1 4 (by decide),
   (namer_ten_names_then_exhausted "claude-20260103-000000").2.2⟩

/-! ### Claim C2: artifacts are fully written before the agent is launched -/

/-- C2: in every execution of `spawn_session`, any `tmux new-session` event
(the subprocess that launches the agent) is preceded in the trace by the
write of that session's config record and of its instructions document; and
after a successful call both files are on disk with the written contents. -/
theorem spawn_artifacts_before_launch (codes : SpawnCodes) (base : String)
    (inp : SpawnInput) (w : World) :
    (∀ i sn cwd cmd,
      (spawn_session codes base inp w).2.2.get? i =
          some (Event.tmuxNewSession sn cwd cmd) →
        Event.writeFile (configPathOf sn) (configText inp.bot_token inp.thread_id)
            ∈ (spawn_session codes base inp w).2.2.take i ∧
        Event.writeFile (promptPathOf sn) (promptText (configPathOf sn) sn inp.prompt)
            ∈ (spawn_session codes base inp w).2.2.take i) ∧
    (∀ sn, (spawn_session codes base inp w).1 = Except.ok sn →
      fsRead (spawn_session codes base inp w).2.1.fs (configPathOf sn)
          = some (configText inp.bot_token inp.thread_id) ∧
      fsRead (spawn_session codes base inp w).2.1.fs (promptPathOf sn)
          = some (promptText (configPathOf sn) sn inp.prompt)) := by
  rcases hn : namer (fun n => tmux_session_exists w n) base with e | sn0
  · constructor
    · intro i sn cwd cmd h
      simp [spawn_session, hn] at h
    · intro sn h
      simp [spawn_session, hn] at h
  · simp only [spawn_session, hn]
    split_ifs with h1 h2 h3 h4 <;> refine ⟨?_, ?_⟩
    · intro i sn cwd cmd h
      rcases i with _ | _ | _ | _ | _ | _ | _ | _ | _ | i <;>
        simp_all [List.get?, List.take, List.cons_append, List.nil_append]
    · intro sn h
      simp at h
    · intro i sn cwd cmd h
      rcases i with _ | _ | _ | _ | _ | _ | _ | _ | _ | i <;>
        simp_all [List.get?, List.take, List.cons_append, List.nil_append]
    · intro sn h
      simp at h
    · intro i sn cwd cmd h
      rcases i with _ | _ | _ | _ | _ | _ | _ | _ | _ | i <;>
        simp_all [List.get?, List.take, List.cons_append, List.nil_append]
    · intro sn h
      simp at h
    · intro i sn cwd cmd h
      rcases i with _ | _ | _ | _ | _ | _ | _ | _ | _ | i <;>
        simp_all [List.get?, List.take, List.cons_append, List.nil_append]
    · intro sn h
      simp at h
    · intro i sn cwd cmd h
      rcases i with _ | _ | _ | _ | _ | _ | _ | _ | _ | i <;>
        simp_all [List.get?, List.take, List.cons_append, List.nil_append]
    · intro sn h
      simp only [Except.ok.injEq] at h
      subst h
      have hne : (configPathOf sn0 == promptPathOf sn0) = false :=
        beq_eq_false_iff_ne.mpr (strAppendNeAppend (sessionDirOf sn0) (by decide))
      constructor
      · simp [fsRead, List.lookup, hne]
      · simp [fsRead, List.lookup]

theorem spawn_artifacts_before_launch_witness :
    Event.writeFile (configPathOf "claude-w2") (configText "t" 5) ∈
      (spawn_session okCodes "claude-w2" ⟨"t", 5, none, "/w", "/p"⟩ emptyWorld).2.2.take 3 ∧
    fsRead (spawn_session okCodes "claude-w2" ⟨"t", 5, none, "/w", "/p"⟩ emptyWorld).2.1.fs
      (configPathOf "claude-w2") = some (configText "t" 5) := by
  have h := spawn_artifacts_before_launch okCodes "claude-w2"
    ⟨"t", 5, none, "/w", "/p"⟩ emptyWorld
  exact ⟨(h.1 3 "claude-w2" "/w" (agentCmd "/p" (configPathOf "claude-w2")) rfl).1,
    (h.2 "claude-w2" rfl).1⟩

/-! ### Claim C4: a failing subprocess step leaves the artifacts on disk -/

/-- C4: when the name was resolved but any of the four subprocess steps after
the artifact writes exits non-zero, `spawn_session` returns a hard failure,
performs no cleanup (no deletion event ever appears in the trace), and the
artifact directory with both of its files is still present afterwards. -/
theorem spawn_subprocess_failure_keeps_artifacts (codes : SpawnCodes)
    (base : String) (inp : SpawnInput) (w : World) (sn : String)
    (hn : namer (fun n => tmux_session_exists w n) base = Except.ok sn)
    (hf : codes.newSession ≠ 0 ∨ codes.loadBuffer ≠ 0 ∨ codes.pasteBuffer ≠ 0 ∨
      codes.sendKeys ≠ 0) :
    (∃ e, (spawn_session codes base inp w).1 = Except.error e) ∧
    fsRead (spawn_session codes base inp w).2.1.fs (configPathOf sn)
        = some (configText inp.bot_token inp.thread_id) ∧
    fsRead (spawn_session codes base inp w).2.1.fs (promptPathOf sn)
        = some (promptText (configPathOf sn) sn inp.prompt) ∧
    sessionDirOf sn ∈ (spawn_session codes base inp w).2.1.dirs ∧
    (∀ d, Event.rmtree d ∉ (spawn_session codes base inp w).2.2) := by
  have hne : (configPathOf sn == promptPathOf sn) = false :=
    beq_eq_false_iff_ne.mpr (strAppendNeAppend (sessionDirOf sn) (by decide))
  simp only [spawn_session, hn]
  split_ifs with h1 h2 h3 h4
  · refine ⟨⟨_, rfl⟩, ?_, ?_, ?_, ?_⟩
    · simp [fsRead, List.lookup, hne]
    · simp [fsRead, List.lookup]
    · simp
    · intro d; simp
  · refine ⟨⟨_, rfl⟩, ?_, ?_, ?_, ?_⟩
    · simp [fsRead, List.lookup, hne]
    · simp [fsRead, List.lookup]
    · simp
    · intro d; simp
  · refine ⟨⟨_, rfl⟩, ?_, ?_, ?_, ?_⟩
    · simp [fsRead, List.lookup, hne]
    · simp [fsRead, List.lookup]
    · simp
    · intro d; simp
  · refine ⟨⟨_, rfl⟩, ?_, ?_, ?_, ?_⟩
    · simp [fsRead, List.lookup, hne]
    · simp [fsRead, List.lookup]
    · simp
    · intro d; simp
  · exfalso
    simp only [ne_eq, Decidable.not_not] at h1 h2 h3 h4
    rcases hf with h | h | h | h <;> contradiction

/-- Codes where the `tmux load-buffer` step fails. -/
def failCodes : SpawnCodes := ⟨0, 1, 0, 0⟩

theorem spawn_subprocess_failure_keeps_artifacts_witness :
    (∃ e, (spawn_session failCodes "claude-w4" ⟨"t", 9, none, "/w", "/p"⟩
      emptyWorld).1 = Except.error e) ∧
    fsRead (spawn_session failCodes "claude-w4" ⟨"t", 9, none, "/w", "/p"⟩
        emptyWorld).2.1.fs (configPathOf "claude-w4") = some (configText "t" 9) := by
  have h := spawn_subprocess_failure_keeps_artifacts failCodes "claude-w4"
    ⟨"t", 9, none, "/w", "/p"⟩ emptyWorld "claude-w4" rfl
    (Or.inr (Or.inl (by decide)))
  exact ⟨h.1, h.2.1⟩

/-! ### Claim C3: thread-id round trip through the config artifact -/

theorem splitCharList_append_cons (sep : Char) (l1 l2 : List Char) (h : sep ∉ l1) :
    splitCharList sep (l1 ++ sep :: l2) = l1 :: splitCharList sep l2 := by
  induction l1 with
  | nil => simp [splitCharList]
  | cons c cs ih =>
    have hc : ¬c = sep := fun he => h (by simp [he])
    have hcs : sep ∉ cs := fun hm => h (by simp [hm])
    simp only [List.cons_append, splitCharList, if_neg hc]
    rw [show splitCharList sep (cs.append (sep :: l2)) = cs :: splitCharList sep l2
      from ih hcs]

theorem splitOnceData_append_cons (sep : Char) (l1 l2 : List Char) (h : sep ∉ l1) :
    splitOnceData sep (l1 ++ sep :: l2) = some (l1, l2) := by
  induction l1 with
  | nil => simp [splitOnceData]
  | cons c cs ih =>
    have hc : ¬c = sep := fun he => h (by simp [he])
    have hcs : sep ∉ cs := fun hm => h (by simp [hm])
    simp [splitOnceData, hc, ih hcs]

theorem mk_append (a b : String) : String.mk (a.data ++ b.data) = a ++ b := by
  cases a; cases b; rfl

theorem isPrefixOf_append_self (l x : List Char) : l.isPrefixOf (l ++ x) = true := by
  induction l with
  | nil => cases x <;> rfl
  | cons c cs ih =>
    simp only [List.cons_append, List.isPrefixOf, beq_self_eq_true, Bool.true_and]
    exact ih

theorem isPrefixOf_append_left (a : List Char) {x y : List Char}
    (h : x.isPrefixOf y = true) : (a ++ x).isPrefixOf (a ++ y) = true := by
  induction a with
  | nil => simpa only [List.nil_append] using h
  | cons c cs ih =>
    simp only [List.cons_append, List.isPrefixOf, beq_self_eq_true, Bool.true_and]
    exact ih

theorem newline_not_mem_pyStrInt (t : Int) : '\n' ∉ (pyStrInt t).data := fun h =>
  absurd (pyStrInt_nonspace t '\n' h) (by decide)

theorem pyStrNat_data_ne_nil (n : Nat) : (pyStrNat n).data ≠ [] := by
  by_cases h0 : n = 0
  · subst h0; decide
  · simp only [pyStrNat, if_neg h0]
    show ((decRev n).map Nat.digitChar).reverse ≠ []
    simp only [ne_eq, List.reverse_eq_nil_iff, List.map_eq_nil_iff]
    rw [decRev_eq_digits]
    exact Nat.digits_ne_nil_iff_ne_zero.mpr h0

theorem pyStrInt_data_ne_nil (t : Int) : (pyStrInt t).data ≠ [] := by
  cases t with
  | ofNat n => exact pyStrNat_data_ne_nil n
  | negSucc m =>
    show (("-" : String) ++ pyStrNat (m + 1)).data ≠ []
    rw [String.data_append]
    simp

theorem pySplitlines_eval {s : String} {gs : List (List Char)}
    (h : splitCharList '\n' s.data = gs ++ [[]]) :
    pySplitlines s = gs.map String.mk := by
  unfold pySplitlines
  rw [h, List.map_append]
  simp only [List.map_cons, List.map_nil]
  rw [show String.mk [] = "" from rfl]
  rw [List.getLast?_concat]
  rw [if_pos rfl]
  rw [List.dropLast_concat]

theorem pySplitlines_configText (tok : String) (t : Int) (htok : '\n' ∉ tok.data) :
    pySplitlines (configText tok t) =
      ["---", "bot_token: " ++ tok, "channel_id: " ++ pyStrInt t,
       "default_timeout: 86400", "---"] := by
  have hD := newline_not_mem_pyStrInt t
  have hdata : (configText tok t).data =
      "---".data ++ '\n' :: (("bot_token: ".data ++ tok.data) ++ '\n' ::
        (("channel_id: ".data ++ (pyStrInt t).data) ++ '\n' ::
          ("default_timeout: 86400".data ++ '\n' ::
            ("---".data ++ '\n' :: ([] : List Char))))) := by
    simp [configText, String.data_append, List.cons_append, List.append_assoc]
  have hsplit : splitCharList '\n' (configText tok t).data =
      ["---".data, "bot_token: ".data ++ tok.data,
        "channel_id: ".data ++ (pyStrInt t).data,
        "default_timeout: 86400".data, "---".data] ++ [[]] := by
    rw [hdata]
    rw [splitCharList_append_cons _ _ _ (by decide)]
    rw [splitCharList_append_cons _ _ _ (by
      intro hm
      rcases List.mem_append.mp hm with hm | hm
      · revert hm; decide
      · exact htok hm)]
    rw [splitCharList_append_cons _ _ _ (by
      intro hm
      rcases List.mem_append.mp hm with hm | hm
      · revert hm; decide
      · exact hD hm)]
    rw [splitCharList_append_cons _ _ _ (by decide)]
    rw [splitCharList_append_cons _ _ _ (by decide)]
    rfl
  rw [pySplitlines_eval hsplit]
  simp only [List.map_cons, List.map_nil]
  rw [mk_append, mk_append]

theorem channelScan_skip {l : String}
    (h : pyStartsWith (pyStrip l) "channel_id:" = false) (rest : List String) :
    channelScan (l :: rest) = channelScan rest := by
  simp only [channelScan]
  rw [if_neg (by simp [h])]

theorem stripData_channel_line (t : Int) :
    stripData ("channel_id: ".data ++ (pyStrInt t).data) =
      "channel_id: ".data ++ (pyStrInt t).data := by
  obtain hcase := List.eq_nil_or_concat (pyStrInt t).data
  rcases hcase with hnil | ⟨ys, c, hyc⟩
  · exact absurd hnil (pyStrInt_data_ne_nil t)
  · rw [List.concat_eq_append] at hyc
    have hc : isPySpace c = false := by
      refine pyStrInt_nonspace t c ?_
      rw [hyc]; simp
    rw [hyc]
    rw [show "channel_id: ".data ++ (ys ++ [c]) =
      'c' :: (("hannel_id: ".data ++ ys) ++ [c]) from by simp]
    exact stripData_cons_snoc (by decide) hc _

theorem pyStrip_channel_line (t : Int) :
    pyStrip ("channel_id: " ++ pyStrInt t) = "channel_id: " ++ pyStrInt t := by
  unfold pyStrip
  rw [String.data_append, stripData_channel_line t, ← String.data_append]

theorem startsWith_channel_line (t : Int) :
    pyStartsWith ("channel_id: " ++ pyStrInt t) "channel_id:" = true := by
  unfold pyStartsWith
  rw [String.data_append]
  rw [show "channel_id: ".data = "channel_id:".data ++ [' '] from rfl]
  rw [List.append_assoc]
  exact isPrefixOf_append_self _ _

theorem pySplit1_channel_line (t : Int) :
    pySplit1 ("channel_id: " ++ pyStrInt t) ':' =
      ["channel_id", String.mk (' ' :: (pyStrInt t).data)] := by
  unfold pySplit1
  rw [String.data_append]
  rw [show "channel_id: ".data ++ (pyStrInt t).data =
    "channel_id".data ++ ':' :: (' ' :: (pyStrInt t).data) from rfl]
  rw [splitOnceData_append_cons ':' _ _ (by decide)]

theorem pyInt_space_value (t : Int) :
    pyInt (pyStrip (String.mk (' ' :: (pyStrInt t).data))) = some t := by
  have hD := pyStrInt_nonspace t
  have h1 : stripData (' ' :: (pyStrInt t).data) = (pyStrInt t).data := by
    rw [stripData_space_cons]; exact stripData_of_nonspace hD
  unfold pyStrip
  rw [show (String.mk (' ' :: (pyStrInt t).data)).data =
    ' ' :: (pyStrInt t).data from rfl, h1]
  unfold pyInt
  rw [show (String.mk (pyStrInt t).data).data = (pyStrInt t).data from rfl]
  rw [stripData_of_nonspace hD]
  exact pyIntCore_pyStrInt t

theorem channelScan_hit_value (t : Int) (rest : List String) :
    channelScan (("channel_id: " ++ pyStrInt t) :: rest) = some t := by
  simp only [channelScan]
  rw [pyStrip_channel_line t]
  rw [if_pos (startsWith_channel_line t)]
  rw [pySplit1_channel_line t]
  exact pyInt_space_value t

theorem startsWith_channel_bot_token (tok : String) :
    pyStartsWith (pyStrip ("bot_token: " ++ tok)) "channel_id:" = false := by
  have hb : ("bot_token: " ++ tok).data = 'b' :: ("ot_token: ".data ++ tok.data) := by
    rw [String.data_append]; rfl
  obtain ⟨r', hr'⟩ :=
    stripData_cons_of_nonspace (b := 'b') (by decide) ("ot_token: ".data ++ tok.data)
  unfold pyStrip pyStartsWith
  rw [hb, hr']
  rw [show (String.mk ('b' :: r')).data = 'b' :: r' from rfl]
  rw [show ("channel_id:" : String).data = 'c' :: "hannel_id:".data from rfl]
  simp only [List.isPrefixOf, Bool.and_eq_false_iff]
  left
  decide

theorem channelScan_configText (tok : String) (t : Int) (htok : '\n' ∉ tok.data) :
    channelScan (pySplitlines (configText tok t)) = some t := by
  rw [pySplitlines_configText tok t htok]
  rw [channelScan_skip (by decide), channelScan_skip (startsWith_channel_bot_token tok)]
  exact channelScan_hit_value t _

theorem lookup_some_mem {fs : List (String × String)} {p c : String}
    (h : fs.lookup p = some c) : (p, c) ∈ fs := by
  induction fs with
  | nil => simp [List.lookup] at h
  | cons e es ih =>
    rcases e with ⟨k, v⟩
    by_cases hk : (p == k) = true
    · have hpk : p = k := by simpa using hk
      simp only [List.lookup, hk] at h
      simp only [Option.some.injEq] at h
      subst hpk; subst h
      exact List.mem_cons_self _ _
    · have hk' : (p == k) = false := by simpa using hk
      simp only [List.lookup, hk'] at h
      exact List.mem_cons_of_mem _ (ih h)

/-- C3 counterexample: the round trip as claimed (for every integer thread id,
over all spawn inputs) fails when the bot token itself contains a newline
followed by a forged `channel_id:` line: the spawn succeeds with thread id 42,
yet the lookup returns the forged 7. -/
theorem thread_id_roundtrip_newline_cex :
    (spawn_session okCodes "claude-20260102-000000"
        ⟨"x\nchannel_id: 7", 42, none, "/w", "/p"⟩ emptyWorld).1 =
      Except.ok "claude-20260102-000000" ∧
    get_session_thread_id
        (spawn_session okCodes "claude-20260102-000000"
          ⟨"x\nchannel_id: 7", 42, none, "/w", "/p"⟩ emptyWorld).2.1.fs
        "claude-20260102-000000" = some 7 ∧
    get_session_thread_id
        (spawn_session okCodes "claude-20260102-000000"
          ⟨"x\nchannel_id: 7", 42, none, "/w", "/p"⟩ emptyWorld).2.1.fs
        "claude-20260102-000000" ≠ some 42 := by
  refine ⟨rfl, by decide, by decide⟩

/-- C3 (amended): provided the bot token contains no newline character, a
successful `spawn_session` with thread id `t` followed by an unmodified
artifact lookup returns exactly `t`; and for any name whose artifact
directory has no files on disk, the lookup returns absent. -/
theorem thread_id_roundtrip (codes : SpawnCodes) (base : String) (inp : SpawnInput)
    (w : World) (sn : String) (htok : '\n' ∉ inp.bot_token.data)
    (hok : (spawn_session codes base inp w).1 = Except.ok sn) :
    get_session_thread_id (spawn_session codes base inp w).2.1.fs sn =
      some inp.thread_id ∧
    (∀ fs2 nm, (∀ p c, (p, c) ∈ fs2 → pathUnder (sessionDirOf nm) p = false) →
      get_session_thread_id fs2 nm = none) := by
  constructor
  · rcases hn : namer (fun n => tmux_session_exists w n) base with e | sn0
    · simp [spawn_session, hn] at hok
    · simp only [spawn_session, hn] at hok ⊢
      split_ifs at hok ⊢ with h1 h2 h3 h4
      all_goals simp at hok
      all_goals (
        subst hok
        have hne : (configPathOf sn0 == promptPathOf sn0) = false :=
          beq_eq_false_iff_ne.mpr (strAppendNeAppend (sessionDirOf sn0) (by decide))
        simp only [get_session_thread_id, fsRead, List.lookup, hne, beq_self_eq_true]
        exact channelScan_configText _ _ htok)
  · intro fs2 nm hfs
    have hnone : fsRead fs2 (configPathOf nm) = none := by
      rcases hcase : fsRead fs2 (configPathOf nm) with _ | c
      · rfl
      · exfalso
        have hmem : (configPathOf nm, c) ∈ fs2 := lookup_some_mem hcase
        have hfalse := hfs _ _ hmem
        have htrue : pathUnder (sessionDirOf nm) (configPathOf nm) = true := by
          simp only [pathUnder, Bool.or_eq_true]
          right
          show ((sessionDirOf nm ++ "/").data).isPrefixOf
            ((sessionDirOf nm ++ "/config.md").data) = true
          rw [String.data_append, String.data_append]
          exact isPrefixOf_append_left _ (by decide)
        rw [htrue] at hfalse
        cases hfalse
    simp [get_session_thread_id, hnone]

theorem thread_id_roundtrip_witness :
    get_session_thread_id
        (spawn_session okCodes "claude-20260104-000000"
          ⟨"secret-token", -12, some "task", "/w", "/p"⟩ emptyWorld).2.1.fs
        "claude-20260104-000000" = some (-12) := by
  have h := thread_id_roundtrip okCodes "claude-20260104-000000"
    ⟨"secret-token", -12, some "task", "/w", "/p"⟩ emptyWorld
    "claude-20260104-000000" (by decide) rfl
  exact h.1

/-! ### Claim C8: list_sessions keeps exactly the claude- entries -/

theorem parseSessionLines_spec (fmt : Int → String) (ls : List String) :
    (∀ e ∈ parseSessionLines fmt ls,
      pyStartsWith e.name "claude-" = true ∧
      ∃ line ∈ ls, ∃ ts, pySplit1 line ' ' = [e.name, ts] ∧
        e.created = formatEntry fmt ts) ∧
    (∀ line ∈ ls, ∀ n ts, pySplit1 line ' ' = [n, ts] →
      pyStartsWith n "claude-" = true →
      (⟨n, formatEntry fmt ts⟩ : SessionEntry) ∈ parseSessionLines fmt ls) := by
  induction ls with
  | nil =>
    constructor
    · intro e he; simp [parseSessionLines] at he
    · intro line hl; simp at hl
  | cons line rest ih =>
    constructor
    · intro e he
      simp only [parseSessionLines] at he
      rcases List.mem_append.mp he with hh | ht
      · rcases hsp : pySplit1 line ' ' with _ | ⟨n, _ | ⟨ts, _ | ⟨x, xs⟩⟩⟩ <;>
          rw [hsp] at hh
        · simp at hh
        · simp at hh
        · have hh' : e ∈ (if pyStartsWith n "claude-" = true
              then [({ name := n, created := formatEntry fmt ts } : SessionEntry)]
              else []) := hh
          by_cases hsw : pyStartsWith n "claude-" = true
          · rw [if_pos hsw] at hh'
            simp only [List.mem_singleton] at hh'
            subst hh'
            exact ⟨hsw, line, by simp, ts, hsp, rfl⟩
          · rw [if_neg hsw] at hh'
            simp at hh'
        · simp at hh
      · obtain ⟨hsw, l2, hl2, ts, hsp, hcr⟩ := ih.1 e ht
        exact ⟨hsw, l2, by simp [hl2], ts, hsp, hcr⟩
    · intro l hl n ts hsp hsw
      simp only [parseSessionLines]
      rcases List.mem_cons.mp hl with rfl | hl2
      · apply List.mem_append_left
        rw [hsp]
        show ({ name := n, created := formatEntry fmt ts } : SessionEntry) ∈
          (if pyStartsWith n "claude-" = true
            then [({ name := n, created := formatEntry fmt ts } : SessionEntry)]
            else [])
        rw [if_pos hsw]
        simp
      · exact List.mem_append_right _ (ih.2 l hl2 n ts hsp hsw)

/-- C8: on a successful query, every entry returned by `list_sessions` has a
name starting with `claude-` and comes from a stdout line whose name part it
is, its `created` field being the formatted timestamp when the raw timestamp
parses as an integer and the raw string unchanged otherwise; and conversely
every stdout line whose name part starts with `claude-` yields an entry (it
is kept even when its timestamp does not parse). -/
theorem list_sessions_filter_and_timestamps (fmt : Int → String) (stdout : String) :
    (∀ e ∈ list_sessions fmt 0 stdout,
      pyStartsWith e.name "claude-" = true ∧
      ∃ line ∈ pySplitlines (pyStrip stdout), ∃ ts,
        pySplit1 line ' ' = [e.name, ts] ∧
        ((∃ t, pyInt ts = some t ∧ e.created = fmt t) ∨
          (pyInt ts = none ∧ e.created = ts))) ∧
    (∀ line ∈ pySplitlines (pyStrip stdout), ∀ n ts,
      pySplit1 line ' ' = [n, ts] → pyStartsWith n "claude-" = true →
      ∃ e ∈ list_sessions fmt 0 stdout, e.name = n ∧
        ((∃ t, pyInt ts = some t ∧ e.created = fmt t) ∨
          (pyInt ts = none ∧ e.created = ts))) := by
  have hls : list_sessions fmt 0 stdout =
      parseSessionLines fmt (pySplitlines (pyStrip stdout)) := by
    simp [list_sessions]
  have h := parseSessionLines_spec fmt (pySplitlines (pyStrip stdout))
  constructor
  · intro e he
    rw [hls] at he
    obtain ⟨hsw, line, hline, ts, hsp, hcr⟩ := h.1 e he
    refine ⟨hsw, line, hline, ts, hsp, ?_⟩
    rcases hpi : pyInt ts with _ | t
    · right; exact ⟨rfl, by rw [hcr]; simp [formatEntry, hpi]⟩
    · left; exact ⟨t, rfl, by rw [hcr]; simp [formatEntry, hpi]⟩
  · intro line hline n ts hsp hsw
    refine ⟨⟨n, formatEntry fmt ts⟩, ?_, rfl, ?_⟩
    · rw [hls]; exact h.2 line hline n ts hsp hsw
    · rcases hpi : pyInt ts with _ | t
      · right; exact ⟨rfl, by simp [formatEntry, hpi]⟩
      · left; exact ⟨t, rfl, by simp [formatEntry, hpi]⟩

theorem list_sessions_filter_and_timestamps_witness :
    ∃ e ∈ list_sessions pyStrInt 0 "claude-aaa 100\nother 5\nclaude-bbb zz",
      e.name = "claude-bbb" ∧
      ((∃ t, pyInt "zz" = some t ∧ e.created = pyStrInt t) ∨
        (pyInt "zz" = none ∧ e.created = "zz")) :=
  (list_sessions_filter_and_timestamps pyStrInt
      "claude-aaa 100\nother 5\nclaude-bbb zz").2
    "claude-bbb zz" (by decide) "claude-bbb" "zz" (by decide) (by decide)
